import Mathlib

/-!
Verification development for the paw-scan-server product catalog service.

The definitions below are a shallow embedding of the TypeScript source:
* `src/middleware/validation.ts` — express-validator chains and the
  `handleValidationErrors` middleware;
* `src/middleware/errorHandler.ts` — `createError` and `errorHandler`;
* `src/services/productService.ts` — the `ProductService` CRUD/query methods,
  with the durable store modelled as an explicit `List Product` and MongoDB's
  unique indexes (declared in `src/models/Product.ts`) modelled as a guard on
  every write;
* `src/models/Product.ts` — the mongoose schema constraints.

JavaScript machine details are modelled as follows: request bodies are untyped
`Json` values; JS string helpers (`trim`, lower-casing, regex digit classes)
are re-implemented over `List Char` so that they evaluate inside the kernel;
numbers are `ℚ`; timestamps are `ℕ` supplied explicitly as a `now` argument.
-/

namespace PawScan

/-! ### Untyped JSON values (the shape of an express request body) -/

/-- A JSON value as it arrives in an express request body. -/
inductive Json where
  | str (s : String)
  | num (q : ℚ)
  | bool (b : Bool)
  | arr (xs : List Json)
  | obj (fields : List (String × Json))
  | null

/-- A field-level validation failure, `{field, message}` — `ValidationError`
from `src/types/index.ts`. -/
structure FieldError where
  field : String
  message : String
deriving DecidableEq

/-! ### Character-level helpers (JS string primitives, kernel-evaluable) -/

/-- Model of `String.prototype.trim()` / express-validator's `.trim()` sanitizer:
strips leading and trailing whitespace. -/
def jsTrim (s : String) : String :=
  ⟨((s.data.dropWhile Char.isWhitespace).reverse.dropWhile Char.isWhitespace).reverse⟩

/-- Lower-casing used to model the `$options: 'i'` (case-insensitive) regex
brand match in `ProductService.getProducts`. -/
def jsToLower (s : String) : String := ⟨s.data.map Char.toLower⟩

/-- Contiguous-substring test over character lists (model of a regex match
with no metacharacters, as used for the brand filter). -/
def containsSub (needle : List Char) : List Char → Bool
  | [] => needle.isEmpty
  | c :: rest => needle.isPrefixOf (c :: rest) || containsSub needle rest

/-- Case-insensitive substring match: `{$regex: pat, $options: 'i'}` applied
to a stored brand string. -/
def brandMatches (pat : String) (brand : String) : Bool :=
  containsSub (jsToLower pat).data (jsToLower brand).data

/-- The barcode pattern `^\d{8,14}$` shared by the validator and the schema. -/
def barcodePat (s : String) : Bool :=
  s.data.all Char.isDigit && decide (8 ≤ s.data.length) && decide (s.data.length ≤ 14)

/-- Modelled from the spec: `imageUrl`, if present, "must parse as a
well-formed URL". The source delegates to validator.js `isURL` (an external
library, not in src/); no claim depends on the exact acceptance set, so the
model only requires an http(s) scheme followed by a non-empty remainder. -/
def isUrlB (s : String) : Bool :=
  (("http://".data.isPrefixOf s.data && decide (7 < s.data.length)) ||
   ("https://".data.isPrefixOf s.data && decide (8 < s.data.length)))

/-! ### express-validator field checks (`src/middleware/validation.ts`)

Each check receives the value found at the body path (`none` when the field
is absent).  Non-`optional()` validators fail on an absent field. -/

/-- Rule `.trim().isLength({min, max})` on a required string field. -/
def isStringLen (lo hi : ℕ) : Option Json → Bool
  | some (.str s) => decide (lo ≤ (jsTrim s).length) && decide ((jsTrim s).length ≤ hi)
  | _ => false

/-- Rule `.trim().isLength({max})` (no minimum) on a string field. -/
def isStringMax (hi : ℕ) : Option Json → Bool
  | some (.str s) => decide ((jsTrim s).length ≤ hi)
  | _ => false

/-- Rule `.trim().matches(/^\d{8,14}$/)`. -/
def isBarcodeStr : Option Json → Bool
  | some (.str s) => barcodePat (jsTrim s)
  | _ => false

/-- Rule `.trim().isURL()`. -/
def isUrlField : Option Json → Bool
  | some (.str s) => isUrlB (jsTrim s)
  | _ => false

/-- Rule `.isFloat({min, max})`. -/
def isFloatRange (lo hi : ℚ) : Option Json → Bool
  | some (.num q) => decide (lo ≤ q) && decide (q ≤ hi)
  | _ => false

/-- Rule `.isFloat({min})`. -/
def isFloatMin (lo : ℚ) : Option Json → Bool
  | some (.num q) => decide (lo ≤ q)
  | _ => false

/-- Rule `.isInt({min})`. -/
def isIntMin (lo : ℚ) : Option Json → Bool
  | some (.num q) => decide (q.den = 1) && decide (lo ≤ q)
  | _ => false

/-- Rule `.isArray({min})`. -/
def isArrayMin (lo : ℕ) : Option Json → Bool
  | some (.arr xs) => decide (lo ≤ xs.length)
  | _ => false

/-- Rule `.isArray()` with no length bound (the `allergens` rule). -/
def isArrayAny : Option Json → Bool
  | some (.arr _) => true
  | _ => false

/-- Per-element check for `body('x.*').isString().trim().isLength({min:1})`. -/
def strElem : Json → Bool
  | .str s => decide (1 ≤ (jsTrim s).length)
  | _ => false

/-- A required-field rule: one `{field, message}` error when the check fails. -/
def requiredCheck (v : Option Json) (ok : Option Json → Bool) (f msg : String) :
    List FieldError :=
  if ok v then [] else [⟨f, msg⟩]

/-- An `.optional()` rule: absent fields pass; present fields are checked. -/
def optionalCheck (v : Option Json) (ok : Option Json → Bool) (f msg : String) :
    List FieldError :=
  match v with
  | none => []
  | some _ => if ok v then [] else [⟨f, msg⟩]

/-- A wildcard rule `body('f.*')`: applied to each element of an array value;
a non-array (or absent) value yields no element errors (the wildcard matches
nothing there — the array-shape rule itself reports that case). -/
def eachCheck (v : Option Json) (ok : Json → Bool) (f msg : String) :
    List FieldError :=
  match v with
  | some (.arr xs) =>
      (xs.enum.filter (fun p => !(ok p.2))).map
        (fun p => ⟨f ++ "[" ++ Nat.repr p.1 ++ "]", msg⟩)
  | _ => []

/-! ### The create-product request body and its validator chain -/

/-- The fields `validateCreateProduct` inspects, each `none` when absent from
the request body.  Dotted paths (`nutritionalInfo.protein`, …) are flattened. -/
structure CreateBody where
  name : Option Json := none
  brand : Option Json := none
  category : Option Json := none
  barcode : Option Json := none
  rating : Option Json := none
  reviewCount : Option Json := none
  ingredients : Option Json := none
  nutritionalInfo_protein : Option Json := none
  nutritionalInfo_fat : Option Json := none
  nutritionalInfo_fiber : Option Json := none
  nutritionalInfo_moisture : Option Json := none
  allergens : Option Json := none
  lifeStage : Option Json := none
  size : Option Json := none
  price : Option Json := none
  imageUrl : Option Json := none
  description : Option Json := none

/-- Chain `validateCreateProduct` from `src/middleware/validation.ts`: the full
chain of create-mode rules, in source order, with the source's messages.
Every rule contributes its own errors; nothing short-circuits. -/
def validateCreateProduct (b : CreateBody) : List FieldError :=
  requiredCheck b.name (isStringLen 1 200) "name"
    "Product name must be between 1 and 200 characters"
  ++ requiredCheck b.brand (isStringLen 1 100) "brand"
    "Brand must be between 1 and 100 characters"
  ++ requiredCheck b.category (isStringLen 1 100) "category"
    "Category must be between 1 and 100 characters"
  ++ optionalCheck b.barcode isBarcodeStr "barcode" "Barcode must be 8-14 digits"
  ++ requiredCheck b.rating (isFloatRange 0 10) "rating"
    "Rating must be a number between 0 and 10"
  ++ requiredCheck b.reviewCount (isIntMin 0) "reviewCount"
    "Review count must be a non-negative integer"
  ++ requiredCheck b.ingredients (isArrayMin 1) "ingredients"
    "At least one ingredient is required"
  ++ eachCheck b.ingredients strElem "ingredients"
    "Ingredient must be a non-empty string"
  ++ requiredCheck b.nutritionalInfo_protein (isFloatRange 0 100)
    "nutritionalInfo.protein" "Protein must be between 0 and 100"
  ++ requiredCheck b.nutritionalInfo_fat (isFloatRange 0 100)
    "nutritionalInfo.fat" "Fat must be between 0 and 100"
  ++ requiredCheck b.nutritionalInfo_fiber (isFloatRange 0 100)
    "nutritionalInfo.fiber" "Fiber must be between 0 and 100"
  ++ requiredCheck b.nutritionalInfo_moisture (isFloatRange 0 100)
    "nutritionalInfo.moisture" "Moisture must be between 0 and 100"
  ++ requiredCheck b.allergens isArrayAny "allergens" "Allergens must be an array"
  ++ eachCheck b.allergens strElem "allergens" "Allergen must be a non-empty string"
  ++ requiredCheck b.lifeStage (isArrayMin 1) "lifeStage"
    "At least one life stage is required"
  ++ eachCheck b.lifeStage strElem "lifeStage" "Life stage must be a non-empty string"
  ++ requiredCheck b.size (isArrayMin 1) "size" "At least one size is required"
  ++ eachCheck b.size strElem "size" "Size must be a non-empty string"
  ++ requiredCheck b.price (isFloatMin 0) "price" "Price must be a non-negative number"
  ++ optionalCheck b.imageUrl isUrlField "imageUrl" "Image URL must be a valid URL"
  ++ optionalCheck b.description (isStringMax 1000) "description"
    "Description cannot exceed 1000 characters"

/-! ### Error taxonomy (`src/middleware/errorHandler.ts`) -/

/-- Structure `AppError`: a JS `Error` with the optional `statusCode` and
`isOperational` extensions (absent on errors not built by `createError`),
plus the engine-assigned `stack` string. -/
structure AppError where
  message : String
  statusCode : Option ℕ
  isOperational : Option Bool
  stack : String
deriving DecidableEq

/-- Function `createError(message, statusCode = 500, isOperational = true)`.  The JS
engine assigns `stack`; its exact text is environment noise, modelled as the
standard `Error: <message>` header line. -/
def createError (message : String) (statusCode : ℕ := 500)
    (isOperational : Bool := true) : AppError :=
  ⟨message, some statusCode, some isOperational, "Error: " ++ message⟩

/-- What `errorHandler` sends: status code and the JSON body fields
(`success`, `error`, and the conditionally-spread `stack`). -/
structure ErrorResponse where
  statusCode : ℕ
  success : Bool
  error : String
  stack : Option String
deriving DecidableEq

/-- JS `a || b` on a possibly-missing number (`0` and `undefined` are falsy). -/
def jsOrNat (v : Option ℕ) (d : ℕ) : ℕ :=
  match v with
  | some n => if n = 0 then d else n
  | none => d

/-- JS `a || b` on a string (the empty string is falsy). -/
def jsOrStr (v d : String) : String := if v = "" then d else v

/-- Function `errorHandler` from `src/middleware/errorHandler.ts`: status from
`error.statusCode || 500`; in production the body carries the generic
`'Internal Server Error'` and no stack, otherwise the error's own message and
its stack.  The handler never reads `isOperational`. -/
def errorHandler (e : AppError) (nodeEnv : String) : ErrorResponse :=
  { statusCode := jsOrNat e.statusCode 500
    success := false
    error := if nodeEnv == "production" then "Internal Server Error"
             else jsOrStr e.message "Internal Server Error"
    stack := if nodeEnv == "production" then none else some e.stack }

/-! ### The validation middleware pipeline (`handleValidationErrors`) -/

/-- One express-validator rule over an abstract request type: a body/param
path, the message configured with `.withMessage`, and the check. -/
structure ValidationRule (Req : Type) where
  field : String
  message : String
  check : Req → Bool

/-- Running a validator chain: every failing rule contributes its
`{field, message}` — the model of `validationResult(req).array()`. -/
def runValidators {Req : Type} (rules : List (ValidationRule Req)) (req : Req) :
    List FieldError :=
  (rules.filter (fun r => !(r.check req))).map (fun r => ⟨r.field, r.message⟩)

/-- A route response: HTTP status plus the uniform envelope fields the
claims mention. -/
structure RouteResponse where
  status : ℕ
  success : Bool
  error : Option String
  validationErrors : List FieldError
deriving DecidableEq

/-- Middleware `handleValidationErrors` from `src/middleware/validation.ts` wired into a
route: when the collected errors are non-empty it responds 400 with the
`Validation failed` envelope and the handler (the only storage-touching
stage) never runs; otherwise it calls `next()`, i.e. the handler. -/
def handleValidationErrors {St : Type} (errs : List FieldError)
    (next : St → RouteResponse × St) (store : St) : RouteResponse × St :=
  if errs.isEmpty then next store
  else (⟨400, false, some "Validation failed", errs⟩, store)

/-- A guarded route: validator chain first, handler second, exactly as the
router composes `validateCreateProduct`/`validateProductQuery`/… with the
controller. -/
def runRoute {Req St : Type} (rules : List (ValidationRule Req))
    (handler : Req → St → RouteResponse × St) (req : Req) (store : St) :
    RouteResponse × St :=
  handleValidationErrors (runValidators rules req) (handler req) store

/-- The create route: the concrete `validateCreateProduct` chain in front of
the create handler (`router.post('/', validateCreateProduct, createProduct)`). -/
def createRoute {St : Type} (b : CreateBody) (handler : St → RouteResponse × St)
    (store : St) : RouteResponse × St :=
  handleValidationErrors (validateCreateProduct b) handler store

/-! ### Stored products (`src/models/Product.ts`) -/

/-- The `nutritionalInfo` sub-document. -/
structure NutritionalInfo where
  protein : ℚ
  fat : ℚ
  fiber : ℚ
  moisture : ℚ
deriving DecidableEq

/-- A stored product document.  Fields follow the mongoose schema in
`src/models/Product.ts` (note: `ingredients` is `[String]` there, even though
`src/types/index.ts` declares structured `Ingredient[]` — the schema and the
validator are what the persisted data obeys).  Timestamps are `ℕ`. -/
structure Product where
  id : String
  name : String
  brand : String
  category : String
  barcode : Option String
  rating : ℚ
  reviewCount : ℕ
  ingredients : List String
  nutritionalInfo : NutritionalInfo
  allergens : List String
  lifeStage : List String
  size : List String
  price : ℚ
  imageUrl : Option String
  description : Option String
  createdAt : ℕ
  updatedAt : ℕ
deriving DecidableEq

/-- The create payload as it reaches `ProductService.createProduct` at
runtime: the validated request body, which carries every schema-required
field.  (`src/types/index.ts` declares a narrower `CreateProductData`; that
discrepancy is the subject of a separate claim about the documented shape.) -/
structure CreateProductData where
  name : String
  brand : String
  category : String
  barcode : Option String
  rating : ℚ
  reviewCount : ℕ
  ingredients : List String
  nutritionalInfo : NutritionalInfo
  allergens : List String
  lifeStage : List String
  size : List String
  price : ℚ
  imageUrl : Option String
  description : Option String
deriving DecidableEq

/-- Type `UpdateProductData` from `src/types/index.ts`: every field optional. -/
structure UpdateProductData where
  name : Option String := none
  brand : Option String := none
  barcode : Option String := none
  rating : Option ℚ := none
  ingredients : Option (List String) := none
  imageUrl : Option String := none
  description : Option String := none
deriving DecidableEq

/-- The empty partial `{}`. -/
def emptyUpdate : UpdateProductData := {}

/-- The document built by `new ProductModel(productData)` + `save()`
timestamps: mongoose applies the schema's `trim: true` to the string paths,
assigns `_id`, and `timestamps: true` sets both `createdAt` and `updatedAt`. -/
def mkProduct (d : CreateProductData) (id : String) (now : ℕ) : Product :=
  { id := id
    name := jsTrim d.name
    brand := jsTrim d.brand
    category := jsTrim d.category
    barcode := d.barcode.map jsTrim
    rating := d.rating
    reviewCount := d.reviewCount
    ingredients := d.ingredients
    nutritionalInfo := d.nutritionalInfo
    allergens := d.allergens
    lifeStage := d.lifeStage
    size := d.size
    price := d.price
    imageUrl := d.imageUrl.map jsTrim
    description := d.description.map jsTrim
    createdAt := now
    updatedAt := now }

/-- Mongoose schema validation run by `save()`: `required` (which rejects the
empty string on string paths), `maxlength`, numeric `min`/`max`, the barcode
and ingredient/lifeStage/size non-emptiness validators, and the URL check. -/
def schemaValid (p : Product) : Bool :=
  !(p.name == "") && decide (p.name.length ≤ 200) &&
  !(p.brand == "") && decide (p.brand.length ≤ 100) &&
  !(p.category == "") && decide (p.category.length ≤ 100) &&
  (match p.barcode with
   | none => true
   | some s => s == "" || barcodePat s) &&
  decide ((0:ℚ) ≤ p.rating) && decide (p.rating ≤ 10) &&
  !p.ingredients.isEmpty &&
  decide ((0:ℚ) ≤ p.nutritionalInfo.protein) && decide (p.nutritionalInfo.protein ≤ 100) &&
  decide ((0:ℚ) ≤ p.nutritionalInfo.fat) && decide (p.nutritionalInfo.fat ≤ 100) &&
  decide ((0:ℚ) ≤ p.nutritionalInfo.fiber) && decide (p.nutritionalInfo.fiber ≤ 100) &&
  decide ((0:ℚ) ≤ p.nutritionalInfo.moisture) && decide (p.nutritionalInfo.moisture ≤ 100) &&
  !p.lifeStage.isEmpty && !p.size.isEmpty &&
  decide ((0:ℚ) ≤ p.price) &&
  (match p.imageUrl with
   | none => true
   | some s => s == "" || isUrlB s) &&
  (match p.description with
   | none => true
   | some s => decide (s.length ≤ 1000))

/-! ### The durable store and its unique indexes

`src/models/Product.ts` declares `{barcode: 1} unique sparse` and
`{name: 1, brand: 1} unique`.  A write that would violate either index is
rejected by MongoDB with a duplicate-key error, which the service's `catch`
turns into a 500 `AppError`.  The store is a `List Product`. -/

/-- The `(name, brand)` key list of a store — the compound unique index. -/
def nbKeys (store : List Product) : List (String × String) :=
  store.map (fun p => (p.name, p.brand))

/-- The barcode key list — the sparse unique index (documents without a
barcode are skipped). -/
def bcKeys (store : List Product) : List String :=
  store.filterMap (fun p => p.barcode)

/-- Both unique indexes hold of a store. -/
def indexOk (store : List Product) : Bool :=
  decide (nbKeys store).Nodup && decide (bcKeys store).Nodup

/-- The invariant the spec states: `(name, brand)` is globally unique. -/
def NameBrandUnique (store : List Product) : Prop :=
  (nbKeys store).Nodup

instance (store : List Product) : Decidable (NameBrandUnique store) :=
  inferInstanceAs (Decidable (nbKeys store).Nodup)

/-! ### `ProductService` (`src/services/productService.ts`) -/

/-- The first create-phase existence check:
`ProductModel.findOne({name, brand})` is non-null. -/
def nbConflict (store : List Product) (name brand : String) : Bool :=
  store.any (fun q => q.name == name && q.brand == brand)

/-- The second create-phase check, guarded by JS truthiness of
`productData.barcode` (absent or `''` skips it):
`ProductModel.findOne({barcode})` is non-null. -/
def bcConflict (store : List Product) (barcode : Option String) : Bool :=
  match barcode with
  | some bc => !(bc == "") && store.any (fun q => q.barcode == some bc)
  | none => false

/-- Method `ProductService.createProduct`: reject on a `(name, brand)` duplicate,
then (when a barcode is supplied) on a barcode duplicate, then persist.  The
persist step models `save()`: schema validation plus the unique-index
backstop; either failure lands in the service's `catch`, which rethrows as a
500 `Failed to create product`. -/
def createProduct (store : List Product) (d : CreateProductData) (id : String)
    (now : ℕ) : Except AppError (List Product × Product) :=
  if nbConflict store d.name d.brand then
    .error (createError "Product with this name and brand already exists" 409)
  else if bcConflict store d.barcode then
    .error (createError "Product with this barcode already exists" 409)
  else
    let p := mkProduct d id now
    if schemaValid p && indexOk (store ++ [p]) then .ok (store ++ [p], p)
    else .error (createError "Failed to create product" 500)

/-- The update-path duplicate check for `(name, brand)`: only runs when the
partial supplies both fields and both are truthy
(`if (updateData.name && updateData.brand)`), and excludes the product
itself (`_id: {$ne: id}`). -/
def nbDupCheck (store : List Product) (id : String) (u : UpdateProductData) : Bool :=
  match u.name, u.brand with
  | some n, some b =>
      !(n == "") && !(b == "") &&
      store.any (fun q => q.name == n && q.brand == b && !(q.id == id))
  | _, _ => false

/-- The update-path barcode duplicate check (`if (updateData.barcode)`). -/
def bcDupCheck (store : List Product) (id : String) (u : UpdateProductData) : Bool :=
  match u.barcode with
  | some bc =>
      !(bc == "") && store.any (fun q => q.barcode == some bc && !(q.id == id))
  | none => false

/-- Model of `findByIdAndUpdate(id, {...updateData, updatedAt: new Date()})`: partial
field replacement — supplied fields overwrite, absent fields persist — and
`updatedAt` is set to now. -/
def applyUpdate (p : Product) (u : UpdateProductData) (now : ℕ) : Product :=
  { p with
    name := u.name.getD p.name
    brand := u.brand.getD p.brand
    barcode := match u.barcode with | some b => some b | none => p.barcode
    rating := u.rating.getD p.rating
    ingredients := u.ingredients.getD p.ingredients
    imageUrl := match u.imageUrl with | some s => some s | none => p.imageUrl
    description := match u.description with | some s => some s | none => p.description
    updatedAt := now }

/-- Method `ProductService.updateProduct`: load by id (404 when absent), run the two
duplicate checks, then write.  The write is `findByIdAndUpdate` against the
indexed collection: a duplicate-key violation surfaces as the catch-all 500
`Failed to update product`. -/
def updateProduct (store : List Product) (id : String) (u : UpdateProductData)
    (now : ℕ) : Except AppError (List Product × Product) :=
  match store.find? (fun p => p.id == id) with
  | none => .error (createError "Product not found" 404)
  | some p =>
    if nbDupCheck store id u then
      .error (createError "Product with this name and brand already exists" 409)
    else if bcDupCheck store id u then
      .error (createError "Product with this barcode already exists" 409)
    else
      let p' := applyUpdate p u now
      let store' := store.map (fun q => if q.id == id then p' else q)
      if indexOk store' then .ok (store', p')
      else .error (createError "Failed to update product" 500)

/-- Method `ProductService.deleteProduct`: `findByIdAndDelete`; 404 when no document
has the id (ids are unique, so removing every match removes the one doc). -/
def deleteProduct (store : List Product) (id : String) :
    Except AppError (List Product) :=
  match store.find? (fun p => p.id == id) with
  | none => .error (createError "Product not found" 404)
  | some _ => .ok (store.filter (fun p => !(p.id == id)))

/-- Type `ProductQuery` from `src/types/index.ts` (`none` = the query parameter
was absent). -/
structure ProductQuery where
  page : Option ℕ := none
  limit : Option ℕ := none
  search : Option String := none
  brand : Option String := none
  minRating : Option ℚ := none
  maxRating : Option ℚ := none

/-- The Mongo filter `getProducts` builds, applied to one document.  The text
predicate of `$text: {$search: s}` is the storage engine's; it enters as the
`tmatch` parameter.  `if (search)` / `if (brand)` use JS truthiness, so the
empty string adds no filter; the rating bounds test `!== undefined`. -/
def matchesFilter (tmatch : String → Product → Bool) (q : ProductQuery)
    (p : Product) : Bool :=
  (match q.search with
   | some s => if s == "" then true else tmatch s p
   | none => true) &&
  (match q.brand with
   | some b => if b == "" then true else brandMatches b p.brand
   | none => true) &&
  (match q.minRating with
   | some r => decide (r ≤ p.rating)
   | none => true) &&
  (match q.maxRating with
   | some r => decide (p.rating ≤ r)
   | none => true)

/-- Sort key of `.sort({createdAt: -1})`: newest first. -/
def createdDesc (a b : Product) : Prop := b.createdAt ≤ a.createdAt

instance : DecidableRel createdDesc := fun a b =>
  inferInstanceAs (Decidable (b.createdAt ≤ a.createdAt))

instance : IsTotal Product createdDesc :=
  ⟨fun a b => (Nat.le_total b.createdAt a.createdAt).imp id id⟩

instance : IsTrans Product createdDesc :=
  ⟨fun _ _ _ hab hbc => Nat.le_trans hbc hab⟩

/-- Model of `Math.ceil(total / limit)` for a positive `limit`. -/
def ceilDiv (total limit : ℕ) : ℕ := (total + limit - 1) / limit

/-- The `pagination` block of a `PaginatedResponse`. -/
structure Pagination where
  page : ℕ
  limit : ℕ
  total : ℕ
  totalPages : ℕ
deriving DecidableEq

/-- Type `PaginatedResponse<Product>`. -/
structure PaginatedResponse where
  data : List Product
  pagination : Pagination
deriving DecidableEq

/-- Method `ProductService.getProducts`: defaults (`page = 1`, `limit = 10`),
`skip = (page - 1) * limit`, the combined filter, **always**
`.sort({createdAt: -1})` (also when a search term is present), skip/limit
pagination, `total = countDocuments(filter)`, and
`totalPages = Math.ceil(total / limit)`. -/
def getProducts (tmatch : String → Product → Bool) (q : ProductQuery)
    (store : List Product) : PaginatedResponse :=
  let page := q.page.getD 1
  let limit := q.limit.getD 10
  let skip := (page - 1) * limit
  let filtered := store.filter (matchesFilter tmatch q)
  let sorted := List.insertionSort createdDesc filtered
  { data := (sorted.drop skip).take limit
    pagination :=
      { page := page
        limit := limit
        total := filtered.length
        totalPages := ceilDiv filtered.length limit } }

/-- Method `ProductService.searchProducts`: `$text` filter, sort by the engine's
`textScore` metadata descending, cap at `limit`.  The engine's relevance
score enters as the `score` parameter. -/
def searchProducts (tmatch : String → Product → Bool)
    (score : String → Product → ℚ) (term : String) (limit : ℕ)
    (store : List Product) : List Product :=
  let matched := store.filter (fun p => tmatch term p)
  (List.insertionSort (fun a b => score term b ≤ score term a) matched).take limit

/-! ### `getBrands` (missing from the service source; modelled from the spec) -/

/-- Lexicographic `≤` on character lists by code point. -/
def lexLe : List Char → List Char → Bool
  | [], _ => true
  | _ :: _, [] => false
  | a :: as, b :: bs =>
    if a.toNat < b.toNat then true
    else if b.toNat < a.toNat then false
    else lexLe as bs

/-- Ascending lexical order on strings. -/
def strLe (a b : String) : Prop := lexLe a.data b.data = true

instance : DecidableRel strLe := fun a b =>
  inferInstanceAs (Decidable (lexLe a.data b.data = true))

theorem lexLe_total : ∀ as bs : List Char, lexLe as bs = true ∨ lexLe bs as = true
  | [], _ => Or.inl rfl
  | _ :: _, [] => Or.inr rfl
  | a :: as, b :: bs => by
    by_cases hab : a.toNat < b.toNat
    · exact Or.inl (by simp [lexLe, hab])
    · by_cases hba : b.toNat < a.toNat
      · exact Or.inr (by simp [lexLe, hba])
      · have h := lexLe_total as bs
        rcases h with h | h
        · exact Or.inl (by simp [lexLe, hab, hba, h])
        · exact Or.inr (by simp [lexLe, hab, hba, h])

theorem lexLe_trans : ∀ as bs cs : List Char,
    lexLe as bs = true → lexLe bs cs = true → lexLe as cs = true
  | [], _, _ => by intro _ _; rfl
  | _ :: _, [], _ => by intro h _; simp [lexLe] at h
  | _ :: _, _ :: _, [] => by intro _ h; simp [lexLe] at h
  | a :: as, b :: bs, c :: cs => by
    intro hab hbc
    simp only [lexLe] at hab hbc ⊢
    by_cases h1 : a.toNat < b.toNat
    · by_cases h2 : b.toNat < c.toNat
      · simp [Nat.lt_trans h1 h2]
      · by_cases h3 : c.toNat < b.toNat
        · simp [h2, h3] at hbc
        · have hbc' : b.toNat = c.toNat := Nat.le_antisymm (Nat.le_of_not_lt h3) (Nat.le_of_not_lt h2)
          simp [hbc' ▸ h1]
    · by_cases h1' : b.toNat < a.toNat
      · simp [h1, h1'] at hab
      · have hab' : a.toNat = b.toNat := Nat.le_antisymm (Nat.le_of_not_lt h1') (Nat.le_of_not_lt h1)
        simp only [h1, if_false, h1', if_false] at hab
        by_cases h2 : b.toNat < c.toNat
        · simp [hab' ▸ h2]
        · by_cases h3 : c.toNat < b.toNat
          · simp [h2, h3] at hbc
          · simp only [h2, if_false, h3, if_false] at hbc
            have h4 : ¬ a.toNat < c.toNat := hab' ▸ h2
            have h5 : ¬ c.toNat < a.toNat := hab' ▸ h3
            simp [h4, h5, lexLe_trans as bs cs hab hbc]

instance : IsTotal String strLe := ⟨fun a b => lexLe_total a.data b.data⟩

instance : IsTrans String strLe :=
  ⟨fun a b c hab hbc => lexLe_trans a.data b.data c.data hab hbc⟩

/-- Modelled from the spec: `productController.getBrands` calls
`productService.getBrands()`, but no such method exists in
`src/services/productService.ts`.  The spec defines it:
"`listBrands() -> sorted unique list of brand strings` (ascending lexical
order)" — the distinct brand values of the stored products, sorted
ascending. -/
def getBrands (store : List Product) : List String :=
  List.insertionSort strLe ((store.map (fun p => p.brand)).dedup)

/-! ### The spec's structured-Ingredient shape (for comparison with the code) -/

/-- Written from the spec's words (§3, Ingredient): a structured value
carrying a non-empty `name`, a `status` in the closed enumeration
{excellent, good, fair, poor}, and a non-empty `description`.  Used only to
compare the spec's claimed ingredient shape against what the code's
validator actually accepts. -/
def specIngredientShape : Json → Bool
  | .obj fs =>
    (match fs.lookup "name" with
     | some (.str s) => !(s == "")
     | _ => false) &&
    (match fs.lookup "status" with
     | some (.str s) =>
         s == "excellent" || s == "good" || s == "fair" || s == "poor"
     | _ => false) &&
    (match fs.lookup "description" with
     | some (.str s) => !(s == "")
     | _ => false)
  | _ => false

/-! ### Sample data used by witnesses and counterexamples -/

/-- A well-formed nutritional block. -/
def sampleNutrition : NutritionalInfo := ⟨25, 12, 4, 10⟩

/-- A schema-valid stored product with the given identity/rating/timestamp. -/
def sampleProduct (id name brand : String) (barcode : Option String)
    (rating : ℚ) (created : ℕ) : Product :=
  { id := id, name := name, brand := brand, category := "Dry Food"
    barcode := barcode, rating := rating, reviewCount := 3
    ingredients := ["chicken"], nutritionalInfo := sampleNutrition
    allergens := [], lifeStage := ["adult"], size := ["medium"]
    price := 20, imageUrl := none, description := none
    createdAt := created, updatedAt := created }

/-- A schema-valid create payload. -/
def sampleData (name brand : String) (barcode : Option String) : CreateProductData :=
  { name := name, brand := brand, category := "Dry Food"
    barcode := barcode, rating := 8, reviewCount := 3
    ingredients := ["chicken"], nutritionalInfo := sampleNutrition
    allergens := [], lifeStage := ["adult"], size := ["medium"]
    price := 20, imageUrl := none, description := none }

/-- A request body that passes every create rule, with plain string
ingredients (as the validator demands). -/
def okBody : CreateBody :=
  { name := some (.str "Premium Dog Food")
    brand := some (.str "PetCo")
    category := some (.str "Dry Food")
    barcode := some (.str "12345678")
    rating := some (.num 8)
    reviewCount := some (.num 3)
    ingredients := some (.arr [.str "Chicken"])
    nutritionalInfo_protein := some (.num 25)
    nutritionalInfo_fat := some (.num 12)
    nutritionalInfo_fiber := some (.num 4)
    nutritionalInfo_moisture := some (.num 10)
    allergens := some (.arr [])
    lifeStage := some (.arr [.str "adult"])
    size := some (.arr [.str "medium"])
    price := some (.num 20)
    imageUrl := none
    description := none }

/-- The documented create shape (name, brand, rating, ingredients, optional
barcode/imageUrl/description) with every field well-formed — and nothing
else: no category, reviewCount, nutritionalInfo, allergens, lifeStage, size,
or price. -/
def documentedBody : CreateBody :=
  { name := some (.str "Premium Dog Food")
    brand := some (.str "PetCo")
    barcode := some (.str "12345678")
    rating := some (.num 8)
    ingredients := some (.arr [.str "Chicken"]) }

/-! ### Helper lemmas -/

/-- Lemma interface: `nbConflict` is the existence of a stored product with the same
`(name, brand)` pair. -/
theorem nbConflict_iff (store : List Product) (n b : String) :
    nbConflict store n b = true ↔ ∃ q ∈ store, q.name = n ∧ q.brand = b := by
  unfold nbConflict
  rw [List.any_eq_true]
  constructor
  · rintro ⟨q, hq, hqb⟩
    rw [Bool.and_eq_true, beq_iff_eq, beq_iff_eq] at hqb
    exact ⟨q, hq, hqb⟩
  · rintro ⟨q, hq, h1, h2⟩
    exact ⟨q, hq, by rw [Bool.and_eq_true, beq_iff_eq, beq_iff_eq]; exact ⟨h1, h2⟩⟩

/-- Lemma interface: `bcConflict` is the existence of a stored product with the provided
(truthy) barcode. -/
theorem bcConflict_iff (store : List Product) (ob : Option String) :
    bcConflict store ob = true ↔
      ∃ bc, ob = some bc ∧ bc ≠ "" ∧ ∃ q ∈ store, q.barcode = some bc := by
  unfold bcConflict
  cases ob with
  | none => simp
  | some bc =>
    rw [Bool.and_eq_true, List.any_eq_true]
    constructor
    · rintro ⟨hne, q, hq, hqb⟩
      rw [beq_iff_eq] at hqb
      refine ⟨bc, rfl, ?_, q, hq, hqb⟩
      intro h
      rw [h] at hne
      simp at hne
    · rintro ⟨bc', hbc', hne, q, hq, hqb⟩
      cases Option.some.inj hbc'
      constructor
      · simpa using hne
      · exact ⟨q, hq, by rw [beq_iff_eq]; exact hqb⟩

/-- With unique ids, the document `find?` returns is the only one with that
id. -/
theorem find?_id_unique {store : List Product} {id : String} {p : Product}
    (hids : (store.map Product.id).Nodup)
    (hfind : store.find? (fun q => q.id == id) = some p) :
    ∀ q ∈ store, q.id = id → q = p := by
  have hp : p ∈ store := List.mem_of_find?_eq_some hfind
  have hpid : p.id = id := by
    have := List.find?_some hfind
    simpa using this
  intro q hq hqid
  exact List.inj_on_of_nodup_map hids hq hp (by rw [hqid, hpid])

/-- Pointwise congruence for `filterMap`. -/
theorem filterMap_congr_mem {α β : Type} (l : List α) (f g : α → Option β)
    (h : ∀ a ∈ l, f a = g a) : l.filterMap f = l.filterMap g := by
  induction l with
  | nil => rfl
  | cons a t ih =>
    rw [List.filterMap_cons, List.filterMap_cons,
      h a (List.mem_cons_self a t), ih (fun x hx => h x (List.mem_cons_of_mem a hx))]

/-- A rewrite of the store that changes no document's `name`, `brand`, or
`barcode` leaves both unique-index key lists unchanged. -/
theorem keys_of_map_same (store : List Product) (f : Product → Product)
    (h : ∀ q ∈ store, (f q).name = q.name ∧ (f q).brand = q.brand ∧
      (f q).barcode = q.barcode) :
    nbKeys (store.map f) = nbKeys store ∧ bcKeys (store.map f) = bcKeys store := by
  constructor
  · unfold nbKeys
    rw [List.map_map]
    exact List.map_congr_left (fun q hq => by
      simp only [Function.comp_apply, (h q hq).1, (h q hq).2.1])
  · unfold bcKeys
    rw [List.filterMap_map]
    exact filterMap_congr_mem _ _ _ (fun q hq => by
      simp only [Function.comp_apply, (h q hq).2.2])

/-! ### Claims -/

/-- C1: `createProduct` runs a fixed-order two-phase uniqueness check: any
stored product with the same `(name, brand)` yields the name+brand conflict
(regardless of any barcode collision, so a double collision surfaces the
name+brand message); otherwise a provided barcode that collides yields the
barcode conflict; and a product is persisted (appended, with the created
document) only when both checks pass. -/
theorem claim_C1_create_two_phase (store : List Product) (d : CreateProductData)
    (id : String) (now : ℕ) :
    ((∃ q ∈ store, q.name = d.name ∧ q.brand = d.brand) →
      createProduct store d id now =
        .error (createError "Product with this name and brand already exists" 409))
    ∧ ((¬ ∃ q ∈ store, q.name = d.name ∧ q.brand = d.brand) →
       (∃ bc, d.barcode = some bc ∧ bc ≠ "" ∧ ∃ q ∈ store, q.barcode = some bc) →
      createProduct store d id now =
        .error (createError "Product with this barcode already exists" 409))
    ∧ (∀ store' p, createProduct store d id now = .ok (store', p) →
        (¬ ∃ q ∈ store, q.name = d.name ∧ q.brand = d.brand) ∧
        (¬ ∃ bc, d.barcode = some bc ∧ bc ≠ "" ∧ ∃ q ∈ store, q.barcode = some bc) ∧
        store' = store ++ [mkProduct d id now] ∧ p = mkProduct d id now) := by
  refine ⟨?_, ?_, ?_⟩
  · intro hnb
    have h1 : nbConflict store d.name d.brand = true := (nbConflict_iff _ _ _).mpr hnb
    unfold createProduct
    rw [h1]
    rfl
  · intro hnb hbc
    have h1 : nbConflict store d.name d.brand = false := by
      rw [← Bool.not_eq_true, nbConflict_iff]; exact hnb
    have h2 : bcConflict store d.barcode = true := (bcConflict_iff _ _).mpr hbc
    unfold createProduct
    rw [h1, h2]
    rfl
  · intro store' p hok
    unfold createProduct at hok
    by_cases h1 : nbConflict store d.name d.brand
    · rw [h1] at hok; simp at hok
    · rw [Bool.not_eq_true] at h1
      rw [h1] at hok
      by_cases h2 : bcConflict store d.barcode
      · rw [h2] at hok; simp at hok
      · rw [Bool.not_eq_true] at h2
        rw [h2] at hok
        simp only [] at hok
        refine ⟨?_, ?_, ?_⟩
        · rw [← nbConflict_iff store d.name d.brand, h1]; simp
        · rw [← bcConflict_iff store d.barcode, h2]; simp
        · by_cases h3 : schemaValid (mkProduct d id now) && indexOk (store ++ [mkProduct d id now])
          · rw [if_pos h3] at hok
            have := Except.ok.inj hok
            exact ⟨((Prod.mk.injEq _ _ _ _ ▸ this).1).symm,
              ((Prod.mk.injEq _ _ _ _ ▸ this).2).symm⟩
          · rw [if_neg h3] at hok; simp at hok

/-- C1 witness: three concrete runs of `createProduct` — a store colliding on
both `(name, brand)` and barcode surfaces the name+brand conflict; a store
colliding only on barcode surfaces the barcode conflict; an empty store
persists the document. -/
theorem claim_C1_witness :
    createProduct [sampleProduct "i1" "Premium" "PetCo" (some "12345678") 8 1]
        (sampleData "Premium" "PetCo" (some "12345678")) "i2" 5
      = .error (createError "Product with this name and brand already exists" 409)
    ∧ createProduct [sampleProduct "i1" "Other" "OtherCo" (some "12345678") 8 1]
        (sampleData "Premium" "PetCo" (some "12345678")) "i2" 5
      = .error (createError "Product with this barcode already exists" 409)
    ∧ createProduct [] (sampleData "Premium" "PetCo" none) "i2" 5
      = .ok ([mkProduct (sampleData "Premium" "PetCo" none) "i2" 5],
             mkProduct (sampleData "Premium" "PetCo" none) "i2" 5) := by
  refine ⟨?_, ?_, ?_⟩
  · exact (claim_C1_create_two_phase _ _ _ _).1
      ⟨sampleProduct "i1" "Premium" "PetCo" (some "12345678") 8 1,
        by decide, rfl, rfl⟩
  · exact (claim_C1_create_two_phase _ _ _ _).2.1
      (by decide)
      ⟨"12345678", rfl, by decide,
        sampleProduct "i1" "Other" "OtherCo" (some "12345678") 8 1, by decide, rfl⟩
  · rfl

/-- C2: on a store satisfying the `(name, brand)`-uniqueness invariant, every
mutating operation preserves it.  For updates — including partials supplying
only `name` or only `brand`, which skip the service-level duplicate check —
any successful result still satisfies the invariant (the unique compound
index rejects a colliding write), so the updated product's `(name, brand)`
pair differs from every other stored product's. -/
theorem claim_C2_name_brand_unique_preserved (store : List Product)
    (h : NameBrandUnique store) :
    (∀ d id now store' p, createProduct store d id now = .ok (store', p) →
        NameBrandUnique store')
    ∧ (∀ id u now store' p', updateProduct store id u now = .ok (store', p') →
        NameBrandUnique store' ∧ p' ∈ store' ∧
        ∀ q ∈ store', q ≠ p' → ¬(q.name = p'.name ∧ q.brand = p'.brand))
    ∧ (∀ id store', deleteProduct store id = .ok store' → NameBrandUnique store') := by
  refine ⟨?_, ?_, ?_⟩
  · intro d id now store' p hok
    unfold createProduct at hok
    by_cases h1 : nbConflict store d.name d.brand
    · rw [h1] at hok; simp at hok
    · rw [Bool.not_eq_true] at h1
      rw [h1] at hok
      by_cases h2 : bcConflict store d.barcode
      · rw [h2] at hok; simp at hok
      · rw [Bool.not_eq_true] at h2
        rw [h2] at hok
        simp only [] at hok
        by_cases h3 : schemaValid (mkProduct d id now) &&
            indexOk (store ++ [mkProduct d id now])
        · rw [if_pos h3] at hok
          have hidx : indexOk (store ++ [mkProduct d id now]) = true :=
            (Bool.and_eq_true _ _ ▸ h3).2
          have hnb : (nbKeys (store ++ [mkProduct d id now])).Nodup :=
            of_decide_eq_true (Bool.and_eq_true _ _ ▸ hidx).1
          have hst : store' = store ++ [mkProduct d id now] :=
            ((Prod.mk.injEq _ _ _ _ ▸ Except.ok.inj hok).1).symm
          rw [hst]
          exact hnb
        · rw [if_neg h3] at hok; simp at hok
  · intro id u now store' p' hok
    unfold updateProduct at hok
    cases hfind : store.find? (fun q => q.id == id) with
    | none => rw [hfind] at hok; simp at hok
    | some p =>
      rw [hfind] at hok
      by_cases h1 : nbDupCheck store id u
      · rw [h1] at hok; simp at hok
      · rw [Bool.not_eq_true] at h1
        rw [h1] at hok
        by_cases h2 : bcDupCheck store id u
        · rw [h2] at hok; simp at hok
        · rw [Bool.not_eq_true] at h2
          rw [h2] at hok
          simp only [] at hok
          by_cases h3 : indexOk (store.map (fun q =>
              if q.id == id then applyUpdate p u now else q))
          · rw [if_pos h3] at hok
            have hinj := Prod.mk.injEq _ _ _ _ ▸ Except.ok.inj hok
            have hst : store' = store.map (fun q =>
                if q.id == id then applyUpdate p u now else q) := hinj.1.symm
            have hp' : p' = applyUpdate p u now := hinj.2.symm
            have hnb : (nbKeys store').Nodup := by
              rw [hst]
              exact of_decide_eq_true (Bool.and_eq_true _ _ ▸ h3).1
            have hp : p ∈ store := List.mem_of_find?_eq_some hfind
            have hpid : (p.id == id) = true := by simpa using List.find?_some hfind
            have happ : (fun q => if q.id == id then applyUpdate p u now else q) p
                = p' := by
              simp only [hpid, if_true, hp']
            have hmem : p' ∈ store' := by
              rw [hst, ← happ]
              exact List.mem_map_of_mem _ hp
            refine ⟨hnb, hmem, ?_⟩
            intro q hq hne hkeys
            exact hne (List.inj_on_of_nodup_map hnb hq hmem (by
              simp only [Prod.mk.injEq]
              exact ⟨hkeys.1, hkeys.2⟩))
          · rw [if_neg h3] at hok; simp at hok
  · intro id store' hok
    unfold deleteProduct at hok
    cases hfind : store.find? (fun q => q.id == id) with
    | none => rw [hfind] at hok; simp at hok
    | some p =>
      rw [hfind] at hok
      have hst : store' = store.filter (fun q => !(q.id == id)) :=
        (Except.ok.inj hok).symm
      rw [hst]
      exact List.Nodup.sublist (List.Sublist.map _ (List.filter_sublist store)) h

/-- Concrete store for the C2 witness. -/
def c2Store : List Product :=
  [sampleProduct "i1" "Food A" "PetCo" none 8 1,
   sampleProduct "i2" "Food B" "PetCo" none 7 2]

/-- A partial supplying only `brand` (the case the service-level check
skips). -/
def c2Upd : UpdateProductData := { brand := some "OtherCo" }

/-- The store after the brand-only update of `i2`. -/
def c2Store' : List Product :=
  [sampleProduct "i1" "Food A" "PetCo" none 8 1,
   { sampleProduct "i2" "Food B" "PetCo" none 7 2 with
       brand := "OtherCo", updatedAt := 9 }]

/-- C2 witness: a brand-only update that succeeds, with the invariant intact
afterwards; and a name-only update that would collide with another product's
`(name, brand)` pair is refused by the unique-index backstop (surfacing as
the service's 500), so no success ever breaks the invariant. -/
theorem claim_C2_witness :
    NameBrandUnique c2Store
    ∧ updateProduct c2Store "i2" c2Upd 9
        = .ok (c2Store', { sampleProduct "i2" "Food B" "PetCo" none 7 2 with
            brand := "OtherCo", updatedAt := 9 })
    ∧ NameBrandUnique c2Store'
    ∧ updateProduct c2Store "i2" { name := some "Food A" } 9
        = .error (createError "Failed to update product" 500) := by
  refine ⟨by decide, rfl, ?_, rfl⟩
  exact (((claim_C2_name_brand_unique_preserved c2Store (by decide)).2.1)
    "i2" c2Upd 9 c2Store'
    ({ sampleProduct "i2" "Food B" "PetCo" none 7 2 with
        brand := "OtherCo", updatedAt := 9 }) rfl).1

/-- C3 counterexample: the claim says create-input validation enforces a
structured `{name, status, description}` shape (with enumerated status) per
ingredient.  In fact a body whose ingredient entry is the bare string
`"Chicken"` — which carries no `status` at all — passes the entire create
validator, and a body carrying exactly the documented structured object is
rejected by the `ingredients.*` string rule. -/
theorem claim_C3_counterexample :
    validateCreateProduct okBody = []
    ∧ okBody.ingredients = some (.arr [.str "Chicken"])
    ∧ specIngredientShape (.str "Chicken") = false
    ∧ validateCreateProduct
        { okBody with ingredients := some (.arr [.obj
            [("name", .str "Chicken"), ("status", .str "excellent"),
             ("description", .str "High-quality protein")]]) }
      = [⟨"ingredients[0]", "Ingredient must be a non-empty string"⟩] := by
  refine ⟨by decide, rfl, rfl, by decide⟩

/-- C3 (amended): every create body the validator accepts carries a
non-empty `ingredients` array whose every entry is a plain string that is
non-empty after trimming — not a structured `{name, status, description}`
value; no status enumeration is enforced anywhere.  (The `≥ 1 ingredient`
part of the original claim survives.) -/
theorem claim_C3_ingredients_are_plain_strings (b : CreateBody)
    (h : validateCreateProduct b = []) :
    ∃ xs, b.ingredients = some (.arr xs) ∧ xs ≠ [] ∧
      ∀ x ∈ xs, ∃ s, x = .str s ∧ 1 ≤ (jsTrim s).length ∧
        specIngredientShape x = false := by
  unfold validateCreateProduct at h
  simp only [List.append_eq_nil] at h
  obtain ⟨⟨⟨⟨⟨⟨⟨⟨⟨⟨⟨⟨⟨⟨⟨⟨⟨⟨⟨⟨hv1, hv2⟩, hv3⟩, hv4⟩, hv5⟩, hv6⟩, h7⟩, h8⟩,
    hv9⟩, hv10⟩, hv11⟩, hv12⟩, hv13⟩, hv14⟩, hv15⟩, hv16⟩, hv17⟩, hv18⟩,
    hv19⟩, hv20⟩, hv21⟩ := h
  have harr : isArrayMin 1 b.ingredients = true := by
    unfold requiredCheck at h7
    by_cases hc : isArrayMin 1 b.ingredients
    · exact hc
    · rw [Bool.not_eq_true] at hc
      rw [hc] at h7
      simp at h7
  cases hbi : b.ingredients with
  | none => rw [hbi] at harr; simp [isArrayMin] at harr
  | some j =>
    cases j with
    | arr xs =>
      refine ⟨xs, rfl, ?_, ?_⟩
      · rw [hbi] at harr
        unfold isArrayMin at harr
        intro hnil
        rw [hnil] at harr
        simp at harr
      · intro x hx
        rw [hbi] at h8
        unfold eachCheck at h8
        rw [List.map_eq_nil_iff] at h8
        have hall : ∀ pr ∈ xs.enum, strElem pr.2 = true := by
          intro pr hpr
          have := List.filter_eq_nil_iff.mp h8 pr hpr
          simpa using this
        have hx' : x ∈ xs.enum.map Prod.snd := by
          rw [List.enum_map_snd]
          exact hx
        obtain ⟨pr, hpr, hsnd⟩ := List.mem_map.mp hx'
        have hel : strElem x = true := hsnd ▸ hall pr hpr
        cases x with
        | str s =>
          refine ⟨s, rfl, ?_, rfl⟩
          unfold strElem at hel
          exact of_decide_eq_true hel
        | num q => simp [strElem] at hel
        | bool v => simp [strElem] at hel
        | arr ys => simp [strElem] at hel
        | obj fs => simp [strElem] at hel
        | null => simp [strElem] at hel
    | str s => rw [hbi] at harr; simp [isArrayMin] at harr
    | num q => rw [hbi] at harr; simp [isArrayMin] at harr
    | bool v => rw [hbi] at harr; simp [isArrayMin] at harr
    | obj fs => rw [hbi] at harr; simp [isArrayMin] at harr
    | null => rw [hbi] at harr; simp [isArrayMin] at harr

/-- C3 witness: the amended theorem applied to the concrete accepted body. -/
theorem claim_C3_witness :
    validateCreateProduct okBody = []
    ∧ ∃ xs, okBody.ingredients = some (.arr xs) ∧ xs ≠ [] ∧
        ∀ x ∈ xs, ∃ s, x = .str s ∧ 1 ≤ (jsTrim s).length ∧
          specIngredientShape x = false :=
  ⟨by decide, claim_C3_ingredients_are_plain_strings okBody (by decide)⟩

/-- C4: `getBrands` returns exactly the distinct brand strings of the stored
products, sorted in ascending lexical order; on stored brands
{"Brand C", "Brand A", "Brand B"} it returns
`["Brand A", "Brand B", "Brand C"]`. -/
theorem claim_C4_brands_sorted_unique :
    (∀ store : List Product,
      List.Sorted strLe (getBrands store)
      ∧ (getBrands store).Nodup
      ∧ ∀ b, b ∈ getBrands store ↔ ∃ p ∈ store, p.brand = b)
    ∧ getBrands [sampleProduct "i1" "P1" "Brand C" none 5 1,
                 sampleProduct "i2" "P2" "Brand A" none 5 2,
                 sampleProduct "i3" "P3" "Brand B" none 5 3]
        = ["Brand A", "Brand B", "Brand C"] := by
  constructor
  · intro store
    refine ⟨List.sorted_insertionSort strLe _, ?_, ?_⟩
    · exact (List.perm_insertionSort strLe _).nodup_iff.mpr (List.nodup_dedup _)
    · intro b
      unfold getBrands
      rw [(List.perm_insertionSort strLe _).mem_iff, List.mem_dedup, List.mem_map]
  · decide

/-- The newer but lower-scoring product for the C5 counterexample. -/
def c5Low : Product := sampleProduct "i1" "Kibble One" "B" none 1 2

/-- The older but higher-scoring product for the C5 counterexample. -/
def c5High : Product := sampleProduct "i2" "Kibble Two" "B" none 5 1

/-- A concrete engine relevance score (here: the product's rating). -/
def c5Score : String → Product → ℚ := fun _ p => p.rating

/-- A list query with a search term set. -/
def c5Query : ProductQuery := { search := some "kibble" }

/-- C5 counterexample: with a search term set, `getProducts` still returns
creation-time-descending order — the newer low-relevance product comes first
— so the list is *not* sorted by relevance score descending as claimed. -/
theorem claim_C5_counterexample :
    c5Query.search = some "kibble"
    ∧ (getProducts (fun _ _ => true) c5Query [c5High, c5Low]).data = [c5Low, c5High]
    ∧ c5Score "kibble" c5Low < c5Score "kibble" c5High
    ∧ ¬ List.Sorted (fun a b => c5Score "kibble" b ≤ c5Score "kibble" a)
        (getProducts (fun _ _ => true) c5Query [c5High, c5Low]).data := by
  refine ⟨rfl, by decide, by decide, by decide⟩

/-- C5 (amended): `getProducts` sorts by creation time descending in every
case — also when a search term is set (the text filter applies, but the sort
key stays `createdAt: -1`); only the standalone `searchProducts` sorts by
relevance score descending. -/
theorem claim_C5_sort_orders (tmatch : String → Product → Bool)
    (q : ProductQuery) (score : String → Product → ℚ) (term : String)
    (limit : ℕ) (store : List Product) :
    List.Sorted createdDesc (getProducts tmatch q store).data
    ∧ List.Sorted (fun a b => score term b ≤ score term a)
        (searchProducts tmatch score term limit store) := by
  constructor
  · exact List.Pairwise.sublist
      ((List.take_sublist _ _).trans (List.drop_sublist _ _))
      (List.sorted_insertionSort createdDesc _)
  · haveI : IsTotal Product (fun a b => score term b ≤ score term a) :=
      ⟨fun a b => le_total _ _⟩
    haveI : IsTrans Product (fun a b => score term b ≤ score term a) :=
      ⟨fun _ _ _ hab hbc => le_trans hbc hab⟩
    exact List.Pairwise.sublist (List.take_sublist _ _)
      (List.sorted_insertionSort _ _)

/-- C6: when any validation rule fails, the route responds before the
handler (the only storage-touching stage) runs: status 400, `success: false`,
`error: "Validation failed"`, and `validationErrors` carrying one
`{field, message}` entry for *every* failing rule (never only the first);
the store is untouched and the outcome is independent of the handler. -/
theorem claim_C6_validation_aggregates_and_rejects_first {Req St : Type}
    (rules : List (ValidationRule Req)) (req : Req)
    (handler handler' : Req → St → RouteResponse × St) (store : St)
    (h : runValidators rules req ≠ []) :
    (runRoute rules handler req store).1.status = 400
    ∧ (runRoute rules handler req store).1.success = false
    ∧ (runRoute rules handler req store).1.error = some "Validation failed"
    ∧ (runRoute rules handler req store).1.validationErrors = runValidators rules req
    ∧ (∀ r ∈ rules, r.check req = false →
        (⟨r.field, r.message⟩ : FieldError) ∈
          (runRoute rules handler req store).1.validationErrors)
    ∧ (runRoute rules handler req store).2 = store
    ∧ runRoute rules handler req store = runRoute rules handler' req store := by
  have hie : (runValidators rules req).isEmpty = false := by
    cases hh : (runValidators rules req).isEmpty
    · rfl
    · exact absurd (List.isEmpty_iff.mp hh) h
  have hmem : ∀ r ∈ rules, r.check req = false →
      (⟨r.field, r.message⟩ : FieldError) ∈ runValidators rules req := by
    intro r hr hc
    unfold runValidators
    exact List.mem_map.mpr ⟨r, List.mem_filter.mpr ⟨hr, by rw [hc]; rfl⟩, rfl⟩
  unfold runRoute handleValidationErrors
  rw [hie]
  exact ⟨rfl, rfl, rfl, rfl, hmem, rfl, rfl⟩

/-- First rule for the C6 witness (fails on the request `0`). -/
def c6r1 : ValidationRule ℕ :=
  ⟨"page", "Page must be a positive integer", fun n => decide (0 < n)⟩

/-- Second rule for the C6 witness (always fails). -/
def c6r2 : ValidationRule ℕ :=
  ⟨"limit", "Limit must be between 1 and 100", fun _ => false⟩

/-- Rules for the C6 witness: two rules that both fail on the request `0`. -/
def c6Rules : List (ValidationRule ℕ) := [c6r1, c6r2]

/-- A handler standing in for a storage-touching controller. -/
def c6Handler : ℕ → ℕ → RouteResponse × ℕ :=
  fun _ st => (⟨200, true, none, []⟩, st + 1)

/-- C6 witness: on request `0` both rules fail; the theorem applies and the
aggregated response carries both field errors with the store untouched. -/
theorem claim_C6_witness :
    runValidators c6Rules 0 ≠ []
    ∧ (runRoute c6Rules c6Handler 0 7).1.status = 400
    ∧ (⟨"page", "Page must be a positive integer"⟩ : FieldError) ∈
        (runRoute c6Rules c6Handler 0 7).1.validationErrors
    ∧ (⟨"limit", "Limit must be between 1 and 100"⟩ : FieldError) ∈
        (runRoute c6Rules c6Handler 0 7).1.validationErrors
    ∧ (runRoute c6Rules c6Handler 0 7).2 = 7 := by
  have h := claim_C6_validation_aggregates_and_rejects_first c6Rules 0
    c6Handler c6Handler 7 (by decide)
  refine ⟨by decide, h.1, ?_, ?_, h.2.2.2.2.2.1⟩
  · exact h.2.2.2.2.1 c6r1 (by unfold c6Rules; exact .head _) (by decide)
  · exact h.2.2.2.2.1 c6r2 (by unfold c6Rules; exact .tail _ (.head _)) rfl

/-- C7: for a list query with `page = p ≥ 1` and `limit = l ≥ 1`, the
response skips exactly `(p-1)*l` of the sorted filtered items, returns at
most `l` of them (exactly `min l (total - (p-1)*l)`), and its pagination
block reports `page = p`, `limit = l`, `total` = the filtered count (not the
page size), and `totalPages = ceil(total/l)` (characterized as the least `k`
with `total ≤ k*l`). -/
theorem claim_C7_pagination (tmatch : String → Product → Bool)
    (q : ProductQuery) (store : List Product) (page limit : ℕ)
    (hp : q.page = some page) (hl : q.limit = some limit) (hl1 : 1 ≤ limit) :
    (getProducts tmatch q store).data
      = ((List.insertionSort createdDesc
          (store.filter (matchesFilter tmatch q))).drop ((page - 1) * limit)).take limit
    ∧ (getProducts tmatch q store).data.length
      = min limit ((store.filter (matchesFilter tmatch q)).length - (page - 1) * limit)
    ∧ (getProducts tmatch q store).data.length ≤ limit
    ∧ (getProducts tmatch q store).pagination.page = page
    ∧ (getProducts tmatch q store).pagination.limit = limit
    ∧ (getProducts tmatch q store).pagination.total
      = (store.filter (matchesFilter tmatch q)).length
    ∧ (getProducts tmatch q store).pagination.totalPages
      = ceilDiv (store.filter (matchesFilter tmatch q)).length limit
    ∧ ∀ k, (getProducts tmatch q store).pagination.totalPages ≤ k ↔
        (store.filter (matchesFilter tmatch q)).length ≤ k * limit := by
  have hlen : (List.insertionSort createdDesc
      (store.filter (matchesFilter tmatch q))).length
      = (store.filter (matchesFilter tmatch q)).length :=
    (List.perm_insertionSort createdDesc _).length_eq
  refine ⟨?_, ?_, ?_, ?_, ?_, ?_, ?_, ?_⟩
  · simp [getProducts, hp, hl]
  · simp only [getProducts, hp, hl, Option.getD_some]
    rw [List.length_take, List.length_drop, hlen]
  · simp only [getProducts, hp, hl, Option.getD_some]
    rw [List.length_take]
    exact min_le_left _ _
  · simp [getProducts, hp, hl]
  · simp [getProducts, hp, hl]
  · simp [getProducts, hp, hl]
  · simp [getProducts, hp, hl]
  · intro k
    simp only [getProducts, hp, hl, Option.getD_some]
    unfold ceilDiv
    rw [Nat.div_le_iff_le_mul_add_pred (Nat.lt_of_lt_of_le Nat.zero_lt_one hl1),
      Nat.mul_comm limit k]
    generalize k * limit = m
    omega

/-- Three stored products for the C7 witness. -/
def c7Store : List Product :=
  [sampleProduct "i1" "P1" "B" none 5 1,
   sampleProduct "i2" "P2" "B" none 5 2,
   sampleProduct "i3" "P3" "B" none 5 3]

/-- C7 witness: `page=1, limit=2` against 3 matching products — the theorem
applies, and concretely the page holds exactly 2 items with
`pagination = {page: 1, limit: 2, total: 3, totalPages: 2}`. -/
theorem claim_C7_witness :
    (getProducts (fun _ _ => true) { page := some 1, limit := some 2 } c7Store).data.length
      = min 2 ((c7Store.filter
          (matchesFilter (fun _ _ => true) { page := some 1, limit := some 2 })).length
          - (1 - 1) * 2)
    ∧ (getProducts (fun _ _ => true) { page := some 1, limit := some 2 } c7Store).data.length = 2
    ∧ (getProducts (fun _ _ => true) { page := some 1, limit := some 2 } c7Store).pagination
      = ⟨1, 2, 3, 2⟩ := by
  refine ⟨?_, by decide, by decide⟩
  exact (claim_C7_pagination (fun _ _ => true)
    { page := some 1, limit := some 2 } c7Store 1 2 rfl rfl (by decide)).2.1

/-- C8 counterexample: the boundary handler does not branch on the
operational flag.  An operational error (`isOperational = true`, message
`"Product not found"`) reaching it with `NODE_ENV=production` is surfaced as
the generic `"Internal Server Error"`, not verbatim; conversely a
non-operational error in a non-production environment leaks its message and
stack verbatim. -/
theorem claim_C8_counterexample :
    (createError "Product not found" 404).isOperational = some true
    ∧ (errorHandler (createError "Product not found" 404) "production").error
        = "Internal Server Error"
    ∧ (errorHandler (createError "Product not found" 404) "production").error
        ≠ "Product not found"
    ∧ (createError "db exploded at line 3" 500 false).isOperational = some false
    ∧ (errorHandler (createError "db exploded at line 3" 500 false) "development").error
        = "db exploded at line 3"
    ∧ (errorHandler (createError "db exploded at line 3" 500 false) "development").stack
        = some ("Error: " ++ "db exploded at line 3") := by
  refine ⟨rfl, by decide, by decide, rfl, by decide, by decide⟩

/-- C8 (amended): what decides verbatim-vs-generic is `NODE_ENV`, not the
error's operational flag.  In production every error — operational or not —
becomes `"Internal Server Error"` with the stack withheld; outside
production every error's message (stack included) is surfaced verbatim; the
response is entirely independent of `isOperational`, which `createError`
sets but `errorHandler` never reads. -/
theorem claim_C8_env_decides_disclosure (e : AppError) (env : String) :
    (env = "production" →
      (errorHandler e env).error = "Internal Server Error"
      ∧ (errorHandler e env).stack = none)
    ∧ (env ≠ "production" →
      (errorHandler e env).error = jsOrStr e.message "Internal Server Error"
      ∧ (errorHandler e env).stack = some e.stack)
    ∧ (∀ b, errorHandler { e with isOperational := b } env = errorHandler e env)
    ∧ (errorHandler e env).statusCode = jsOrNat e.statusCode 500
    ∧ (errorHandler e env).success = false := by
  refine ⟨?_, ?_, ?_, rfl, rfl⟩
  · intro hprod
    subst hprod
    exact ⟨rfl, rfl⟩
  · intro hne
    have hb : (env == "production") = false := by
      rw [beq_eq_false_iff_ne]
      exact hne
    unfold errorHandler
    rw [hb]
    exact ⟨rfl, rfl⟩
  · intro b
    rfl

/-- C8 witness: the amended theorem applied to a concrete operational error
in production and a concrete foreign error in development. -/
theorem claim_C8_witness :
    (errorHandler (createError "Product not found" 404) "production").error
      = "Internal Server Error"
    ∧ (errorHandler ⟨"boom", none, none, "Error: boom"⟩ "development").error
      = jsOrStr "boom" "Internal Server Error"
    ∧ (errorHandler ⟨"boom", none, none, "Error: boom"⟩ "development").stack
      = some "Error: boom" := by
  have h1 := (claim_C8_env_decides_disclosure
    (createError "Product not found" 404) "production").1 rfl
  have h2 := (claim_C8_env_decides_disclosure
    ⟨"boom", none, none, "Error: boom"⟩ "development").2.1 (by decide)
  exact ⟨h1.1, h2.1, h2.2⟩

/-- C9: updating a stored product with the empty partial `{}` succeeds and
changes nothing except `updatedAt`, which becomes the current time — a
strict increase whenever the clock has advanced past the previous value. -/
theorem claim_C9_empty_update_frame (store : List Product) (id : String)
    (p : Product) (now : ℕ)
    (hids : (store.map Product.id).Nodup)
    (hfind : store.find? (fun q => q.id == id) = some p)
    (hidx : indexOk store = true) :
    updateProduct store id emptyUpdate now
      = .ok (store.map (fun q => if q.id == id then { p with updatedAt := now } else q),
             { p with updatedAt := now })
    ∧ ({ p with updatedAt := now }).name = p.name
    ∧ ({ p with updatedAt := now }).brand = p.brand
    ∧ ({ p with updatedAt := now }).category = p.category
    ∧ ({ p with updatedAt := now }).barcode = p.barcode
    ∧ ({ p with updatedAt := now }).rating = p.rating
    ∧ ({ p with updatedAt := now }).reviewCount = p.reviewCount
    ∧ ({ p with updatedAt := now }).ingredients = p.ingredients
    ∧ ({ p with updatedAt := now }).nutritionalInfo = p.nutritionalInfo
    ∧ ({ p with updatedAt := now }).allergens = p.allergens
    ∧ ({ p with updatedAt := now }).lifeStage = p.lifeStage
    ∧ ({ p with updatedAt := now }).size = p.size
    ∧ ({ p with updatedAt := now }).price = p.price
    ∧ ({ p with updatedAt := now }).imageUrl = p.imageUrl
    ∧ ({ p with updatedAt := now }).description = p.description
    ∧ ({ p with updatedAt := now }).id = p.id
    ∧ ({ p with updatedAt := now }).createdAt = p.createdAt
    ∧ ({ p with updatedAt := now }).updatedAt = now
    ∧ (p.updatedAt < now → p.updatedAt < ({ p with updatedAt := now }).updatedAt) := by
  have hq : ∀ q ∈ store, q.id = id → q = p := find?_id_unique hids hfind
  have happ : applyUpdate p emptyUpdate now = { p with updatedAt := now } := rfl
  have hkeys := keys_of_map_same store
    (fun q => if q.id == id then { p with updatedAt := now } else q) (by
      intro q hqm
      by_cases hc : (q.id == id) = true
      · have : q = p := hq q hqm (by simpa using hc)
        subst this
        simp only [hc, if_true]
        exact ⟨trivial, trivial, trivial⟩
      · rw [Bool.not_eq_true] at hc
        simp only [hc, Bool.false_eq_true, if_false]
        exact ⟨trivial, trivial, trivial⟩)
  have hidx' : indexOk (store.map
      (fun q => if q.id == id then { p with updatedAt := now } else q)) = true := by
    unfold indexOk
    unfold indexOk at hidx
    rw [hkeys.1, hkeys.2]
    exact hidx
  refine ⟨?_, rfl, rfl, rfl, rfl, rfl, rfl, rfl, rfl, rfl, rfl, rfl, rfl, rfl,
    rfl, rfl, rfl, rfl, fun h => h⟩
  unfold updateProduct
  rw [hfind]
  have h1 : nbDupCheck store id emptyUpdate = false := rfl
  have h2 : bcDupCheck store id emptyUpdate = false := rfl
  rw [h1, h2]
  simp only [Bool.false_eq_true, if_false]
  rw [happ, if_pos hidx']

/-- C9 witness: the theorem applied to the concrete two-product store. -/
theorem claim_C9_witness :
    updateProduct c2Store "i1" emptyUpdate 9
      = .ok (c2Store.map (fun q => if q.id == "i1" then
              { sampleProduct "i1" "Food A" "PetCo" none 8 1 with updatedAt := 9 }
            else q),
            { sampleProduct "i1" "Food A" "PetCo" none 8 1 with updatedAt := 9 })
    ∧ (sampleProduct "i1" "Food A" "PetCo" none 8 1).updatedAt < 9 := by
  refine ⟨?_, by decide⟩
  exact (claim_C9_empty_update_frame c2Store "i1"
    (sampleProduct "i1" "Food A" "PetCo" none 8 1) 9 (by decide) rfl (by decide)).1

/-- C10: a create body containing only the documented `CreateProduct` fields
(name, brand, rating, ingredients, optionally barcode/imageUrl/description)
and nothing else always fails the create validator — which additionally
requires category, reviewCount, the four `nutritionalInfo` components,
allergens, lifeStage, size and price — so the create route rejects it with
400 before the handler (and hence any storage write) runs, whatever the rest
of the body holds. -/
theorem claim_C10_documented_shape_never_persisted (b : CreateBody)
    (hcat : b.category = none) (hrev : b.reviewCount = none)
    (hpro : b.nutritionalInfo_protein = none)
    (hfat : b.nutritionalInfo_fat = none)
    (hfib : b.nutritionalInfo_fiber = none)
    (hmoi : b.nutritionalInfo_moisture = none)
    (hall : b.allergens = none) (hlif : b.lifeStage = none)
    (hsiz : b.size = none) (hpri : b.price = none) :
    validateCreateProduct b ≠ []
    ∧ (⟨"category", "Category must be between 1 and 100 characters"⟩ : FieldError)
        ∈ validateCreateProduct b
    ∧ (⟨"reviewCount", "Review count must be a non-negative integer"⟩ : FieldError)
        ∈ validateCreateProduct b
    ∧ (⟨"nutritionalInfo.protein", "Protein must be between 0 and 100"⟩ : FieldError)
        ∈ validateCreateProduct b
    ∧ (⟨"nutritionalInfo.fat", "Fat must be between 0 and 100"⟩ : FieldError)
        ∈ validateCreateProduct b
    ∧ (⟨"nutritionalInfo.fiber", "Fiber must be between 0 and 100"⟩ : FieldError)
        ∈ validateCreateProduct b
    ∧ (⟨"nutritionalInfo.moisture", "Moisture must be between 0 and 100"⟩ : FieldError)
        ∈ validateCreateProduct b
    ∧ (⟨"allergens", "Allergens must be an array"⟩ : FieldError)
        ∈ validateCreateProduct b
    ∧ (⟨"lifeStage", "At least one life stage is required"⟩ : FieldError)
        ∈ validateCreateProduct b
    ∧ (⟨"size", "At least one size is required"⟩ : FieldError)
        ∈ validateCreateProduct b
    ∧ (⟨"price", "Price must be a non-negative number"⟩ : FieldError)
        ∈ validateCreateProduct b
    ∧ ∀ (St : Type) (handler : St → RouteResponse × St) (store : St),
        (createRoute b handler store).1.status = 400
        ∧ (createRoute b handler store).1.success = false
        ∧ (createRoute b handler store).1.error = some "Validation failed"
        ∧ (createRoute b handler store).2 = store := by
  have hne : validateCreateProduct b ≠ [] := by
    intro h
    unfold validateCreateProduct at h
    simp only [List.append_eq_nil] at h
    have hc := h.1.1.1.1.1.1.1.1.1.1.1.1.1.1.1.1.1.1.2
    rw [hcat] at hc
    simp [requiredCheck, isStringLen] at hc
  refine ⟨hne, ?_, ?_, ?_, ?_, ?_, ?_, ?_, ?_, ?_, ?_, ?_⟩
  · simp [validateCreateProduct, hcat, requiredCheck, isStringLen]
  · simp [validateCreateProduct, hrev, requiredCheck, isIntMin]
  · simp [validateCreateProduct, hpro, requiredCheck, isFloatRange]
  · simp [validateCreateProduct, hfat, requiredCheck, isFloatRange]
  · simp [validateCreateProduct, hfib, requiredCheck, isFloatRange]
  · simp [validateCreateProduct, hmoi, requiredCheck, isFloatRange]
  · simp [validateCreateProduct, hall, requiredCheck, isArrayAny]
  · simp [validateCreateProduct, hlif, requiredCheck, isArrayMin]
  · simp [validateCreateProduct, hsiz, requiredCheck, isArrayMin]
  · simp [validateCreateProduct, hpri, requiredCheck, isFloatMin]
  · intro St handler store
    have hie : (validateCreateProduct b).isEmpty = false := by
      cases hh : (validateCreateProduct b).isEmpty
      · rfl
      · exact absurd (List.isEmpty_iff.mp hh) hne
    unfold createRoute handleValidationErrors
    rw [hie]
    exact ⟨rfl, rfl, rfl, rfl⟩

/-- C10 witness: the fully well-formed documented-shape body — valid name,
brand, rating, ingredients and barcode, nothing else — is rejected with
exactly the ten missing-field errors. -/
theorem claim_C10_witness :
    validateCreateProduct documentedBody ≠ []
    ∧ (validateCreateProduct documentedBody).length = 10
    ∧ (⟨"category", "Category must be between 1 and 100 characters"⟩ : FieldError)
        ∈ validateCreateProduct documentedBody := by
  have h := claim_C10_documented_shape_never_persisted documentedBody
    rfl rfl rfl rfl rfl rfl rfl rfl rfl rfl
  exact ⟨h.1, by decide, h.2.1⟩

end PawScan
